import Mathlib

/-!
Verification of the model metadata extraction subsystem of
`llama_server_launcher_v5.py` (GGUF analysis: field decoder, key resolver,
quantization inferencer, extraction orchestrator, async analysis scheduler).

The Python source is shallowly embedded: dynamic values that flow through
the decoder are modelled by the inductive type `PyVal`, the metadata table
of the structured reader by an association list preserving enumeration
order, the orchestrator by a pure function of an environment recording the
filesystem outcome, library availability and each strategy's outcome, and
the scheduler by a fold over an event trace.
-/

namespace LlamaLauncher

/-- ASCII uppercasing of one character; models Python str.upper on the
ASCII range (the quantization catalog and filenames compared against it
are ASCII). -/
def asciiUpper (c : Char) : Char :=
  if 97 ≤ c.toNat ∧ c.toNat ≤ 122 then Char.ofNat (c.toNat - 32) else c

/-- Uppercase a string character by character (Python filename.upper()). -/
def strUpper (s : String) : String :=
  String.mk (s.toList.map asciiUpper)

/-- Does the list start with the given needle? (helper for substring search). -/
def startsWithSeq : List Char → List Char → Bool
  | [], _ => true
  | _ :: _, [] => false
  | a :: as, b :: bs => a == b && startsWithSeq as bs

/-- Substring test on character lists; models the Python `in` operator on
strings. -/
def containsSeq (needle hay : List Char) : Bool :=
  match hay with
  | [] => startsWithSeq needle []
  | _ :: t => startsWithSeq needle hay || containsSeq needle t

/-- Substring test on strings (Python: needle in hay). -/
def strContains (needle hay : String) : Bool :=
  containsSeq needle.toList hay.toList

/-- Replace underscores by hyphens (Python: qt.replace("_", "-")). -/
def underscoreToHyphen (s : String) : String :=
  String.mk (s.toList.map (fun c => if c == '_' then '-' else c))

section FieldDecoder

/-- A dynamic Python value as it flows through `get_field_value`
(src lines 591-638).  Elements produced by numpy tolist on GGUF field
parts are integers (uint8/uint32/... scalars) or nested lists; booleans,
byte strings and text strings cover the remaining shapes the decoder
branches on.  Floating-point payloads are outside the scope of the claims
and are not modelled. -/
inductive PyVal where
  | pInt (n : Int)
  | pBool (b : Bool)
  | pStr (s : String)
  | pBytes (bs : List Nat)
  | pList (xs : List PyVal)

/-- Python int(x) on a payload element: succeeds on integers and booleans,
raises (modelled as none) on lists, byte strings and non-numeric values.
GGUF field parts are numpy integer arrays, so these are the shapes int()
meets in `int_vals = [int(x) for x in val]` (src line 611). -/
def pyToInt : PyVal → Option Int
  | .pInt n => some n
  | .pBool b => some (if b then 1 else 0)
  | _ => none

/-- Is a byte a UTF-8 continuation byte (0x80-0xBF)? -/
def isCont (b : Nat) : Bool := 128 ≤ b && b ≤ 191

/-- UTF-8 decoding with invalid sequences dropped; models Python
bytes(...).decode(utf-8, errors=ignore) (src line 614).  Valid sequences
become their code point; bytes that cannot start or complete a valid
sequence are skipped.  The guards exclude overlong encodings, surrogates
and out-of-range code points exactly as CPython does. -/
def utf8DecodeIgnore : List Nat → List Char
  | [] => []
  | b :: rest =>
    if b < 128 then Char.ofNat b :: utf8DecodeIgnore rest
    else if 194 ≤ b && b ≤ 223 then
      match rest with
      | b2 :: rest2 =>
        if isCont b2 then
          Char.ofNat ((b - 192) * 64 + (b2 - 128)) :: utf8DecodeIgnore rest2
        else utf8DecodeIgnore (b2 :: rest2)
      | [] => []
    else if 224 ≤ b && b ≤ 239 then
      match rest with
      | b2 :: b3 :: rest3 =>
        if (if b == 224 then 160 ≤ b2 && b2 ≤ 191
            else if b == 237 then 128 ≤ b2 && b2 ≤ 159
            else isCont b2) && isCont b3 then
          Char.ofNat ((b - 224) * 4096 + (b2 - 128) * 64 + (b3 - 128)) ::
            utf8DecodeIgnore rest3
        else utf8DecodeIgnore (b2 :: b3 :: rest3)
      | [b2] => utf8DecodeIgnore [b2]
      | [] => []
    else if 240 ≤ b && b ≤ 244 then
      match rest with
      | b2 :: b3 :: b4 :: rest4 =>
        if (if b == 240 then 144 ≤ b2 && b2 ≤ 191
            else if b == 244 then 128 ≤ b2 && b2 ≤ 143
            else isCont b2) && isCont b3 && isCont b4 then
          Char.ofNat ((b - 240) * 262144 + (b2 - 128) * 4096 +
            (b3 - 128) * 64 + (b4 - 128)) :: utf8DecodeIgnore rest4
        else utf8DecodeIgnore (b2 :: b3 :: b4 :: rest4)
      | [b2, b3] => utf8DecodeIgnore [b2, b3]
      | [b2] => utf8DecodeIgnore [b2]
      | [] => []
    else utf8DecodeIgnore rest

/-- The code-point intervals on which Python str.isalpha is true: the
Unicode letter categories Lu, Ll, Lt, Lm and Lo, generated from the
CPython Unicode database (unicodedata 14.0.0) as maximal intervals of
code points c with chr(c).isalpha(). -/
def alphaRanges : List (Nat × Nat) :=
  [(65, 90), (97, 122), (170, 170), (181, 181), (186, 186), (192, 214),
   (216, 246), (248, 705), (710, 721), (736, 740), (748, 748), (750, 750),
   (880, 884), (886, 887), (890, 893), (895, 895), (902, 902), (904, 906),
   (908, 908), (910, 929), (931, 1013), (1015, 1153), (1162, 1327),
   (1329, 1366), (1369, 1369), (1376, 1416), (1488, 1514), (1519, 1522),
   (1568, 1610), (1646, 1647), (1649, 1747), (1749, 1749), (1765, 1766),
   (1774, 1775), (1786, 1788), (1791, 1791), (1808, 1808), (1810, 1839),
   (1869, 1957), (1969, 1969), (1994, 2026), (2036, 2037), (2042, 2042),
   (2048, 2069), (2074, 2074), (2084, 2084), (2088, 2088), (2112, 2136),
   (2144, 2154), (2160, 2183), (2185, 2190), (2208, 2249), (2308, 2361),
   (2365, 2365), (2384, 2384), (2392, 2401), (2417, 2432), (2437, 2444),
   (2447, 2448), (2451, 2472), (2474, 2480), (2482, 2482), (2486, 2489),
   (2493, 2493), (2510, 2510), (2524, 2525), (2527, 2529), (2544, 2545),
   (2556, 2556), (2565, 2570), (2575, 2576), (2579, 2600), (2602, 2608),
   (2610, 2611), (2613, 2614), (2616, 2617), (2649, 2652), (2654, 2654),
   (2674, 2676), (2693, 2701), (2703, 2705), (2707, 2728), (2730, 2736),
   (2738, 2739), (2741, 2745), (2749, 2749), (2768, 2768), (2784, 2785),
   (2809, 2809), (2821, 2828), (2831, 2832), (2835, 2856), (2858, 2864),
   (2866, 2867), (2869, 2873), (2877, 2877), (2908, 2909), (2911, 2913),
   (2929, 2929), (2947, 2947), (2949, 2954), (2958, 2960), (2962, 2965),
   (2969, 2970), (2972, 2972), (2974, 2975), (2979, 2980), (2984, 2986),
   (2990, 3001), (3024, 3024), (3077, 3084), (3086, 3088), (3090, 3112),
   (3114, 3129), (3133, 3133), (3160, 3162), (3165, 3165), (3168, 3169),
   (3200, 3200), (3205, 3212), (3214, 3216), (3218, 3240), (3242, 3251),
   (3253, 3257), (3261, 3261), (3293, 3294), (3296, 3297), (3313, 3314),
   (3332, 3340), (3342, 3344), (3346, 3386), (3389, 3389), (3406, 3406),
   (3412, 3414), (3423, 3425), (3450, 3455), (3461, 3478), (3482, 3505),
   (3507, 3515), (3517, 3517), (3520, 3526), (3585, 3632), (3634, 3635),
   (3648, 3654), (3713, 3714), (3716, 3716), (3718, 3722), (3724, 3747),
   (3749, 3749), (3751, 3760), (3762, 3763), (3773, 3773), (3776, 3780),
   (3782, 3782), (3804, 3807), (3840, 3840), (3904, 3911), (3913, 3948),
   (3976, 3980), (4096, 4138), (4159, 4159), (4176, 4181), (4186, 4189),
   (4193, 4193), (4197, 4198), (4206, 4208), (4213, 4225), (4238, 4238),
   (4256, 4293), (4295, 4295), (4301, 4301), (4304, 4346), (4348, 4680),
   (4682, 4685), (4688, 4694), (4696, 4696), (4698, 4701), (4704, 4744),
   (4746, 4749), (4752, 4784), (4786, 4789), (4792, 4798), (4800, 4800),
   (4802, 4805), (4808, 4822), (4824, 4880), (4882, 4885), (4888, 4954),
   (4992, 5007), (5024, 5109), (5112, 5117), (5121, 5740), (5743, 5759),
   (5761, 5786), (5792, 5866), (5873, 5880), (5888, 5905), (5919, 5937),
   (5952, 5969), (5984, 5996), (5998, 6000), (6016, 6067), (6103, 6103),
   (6108, 6108), (6176, 6264), (6272, 6276), (6279, 6312), (6314, 6314),
   (6320, 6389), (6400, 6430), (6480, 6509), (6512, 6516), (6528, 6571),
   (6576, 6601), (6656, 6678), (6688, 6740), (6823, 6823), (6917, 6963),
   (6981, 6988), (7043, 7072), (7086, 7087), (7098, 7141), (7168, 7203),
   (7245, 7247), (7258, 7293), (7296, 7304), (7312, 7354), (7357, 7359),
   (7401, 7404), (7406, 7411), (7413, 7414), (7418, 7418), (7424, 7615),
   (7680, 7957), (7960, 7965), (7968, 8005), (8008, 8013), (8016, 8023),
   (8025, 8025), (8027, 8027), (8029, 8029), (8031, 8061), (8064, 8116),
   (8118, 8124), (8126, 8126), (8130, 8132), (8134, 8140), (8144, 8147),
   (8150, 8155), (8160, 8172), (8178, 8180), (8182, 8188), (8305, 8305),
   (8319, 8319), (8336, 8348), (8450, 8450), (8455, 8455), (8458, 8467),
   (8469, 8469), (8473, 8477), (8484, 8484), (8486, 8486), (8488, 8488),
   (8490, 8493), (8495, 8505), (8508, 8511), (8517, 8521), (8526, 8526),
   (8579, 8580), (11264, 11492), (11499, 11502), (11506, 11507),
   (11520, 11557), (11559, 11559), (11565, 11565), (11568, 11623),
   (11631, 11631), (11648, 11670), (11680, 11686), (11688, 11694),
   (11696, 11702), (11704, 11710), (11712, 11718), (11720, 11726),
   (11728, 11734), (11736, 11742), (11823, 11823), (12293, 12294),
   (12337, 12341), (12347, 12348), (12353, 12438), (12445, 12447),
   (12449, 12538), (12540, 12543), (12549, 12591), (12593, 12686),
   (12704, 12735), (12784, 12799), (13312, 19903), (19968, 42124),
   (42192, 42237), (42240, 42508), (42512, 42527), (42538, 42539),
   (42560, 42606), (42623, 42653), (42656, 42725), (42775, 42783),
   (42786, 42888), (42891, 42954), (42960, 42961), (42963, 42963),
   (42965, 42969), (42994, 43009), (43011, 43013), (43015, 43018),
   (43020, 43042), (43072, 43123), (43138, 43187), (43250, 43255),
   (43259, 43259), (43261, 43262), (43274, 43301), (43312, 43334),
   (43360, 43388), (43396, 43442), (43471, 43471), (43488, 43492),
   (43494, 43503), (43514, 43518), (43520, 43560), (43584, 43586),
   (43588, 43595), (43616, 43638), (43642, 43642), (43646, 43695),
   (43697, 43697), (43701, 43702), (43705, 43709), (43712, 43712),
   (43714, 43714), (43739, 43741), (43744, 43754), (43762, 43764),
   (43777, 43782), (43785, 43790), (43793, 43798), (43808, 43814),
   (43816, 43822), (43824, 43866), (43868, 43881), (43888, 44002),
   (44032, 55203), (55216, 55238), (55243, 55291), (63744, 64109),
   (64112, 64217), (64256, 64262), (64275, 64279), (64285, 64285),
   (64287, 64296), (64298, 64310), (64312, 64316), (64318, 64318),
   (64320, 64321), (64323, 64324), (64326, 64433), (64467, 64829),
   (64848, 64911), (64914, 64967), (65008, 65019), (65136, 65140),
   (65142, 65276), (65313, 65338), (65345, 65370), (65382, 65470),
   (65474, 65479), (65482, 65487), (65490, 65495), (65498, 65500),
   (65536, 65547), (65549, 65574), (65576, 65594), (65596, 65597),
   (65599, 65613), (65616, 65629), (65664, 65786), (66176, 66204),
   (66208, 66256), (66304, 66335), (66349, 66368), (66370, 66377),
   (66384, 66421), (66432, 66461), (66464, 66499), (66504, 66511),
   (66560, 66717), (66736, 66771), (66776, 66811), (66816, 66855),
   (66864, 66915), (66928, 66938), (66940, 66954), (66956, 66962),
   (66964, 66965), (66967, 66977), (66979, 66993), (66995, 67001),
   (67003, 67004), (67072, 67382), (67392, 67413), (67424, 67431),
   (67456, 67461), (67463, 67504), (67506, 67514), (67584, 67589),
   (67592, 67592), (67594, 67637), (67639, 67640), (67644, 67644),
   (67647, 67669), (67680, 67702), (67712, 67742), (67808, 67826),
   (67828, 67829), (67840, 67861), (67872, 67897), (67968, 68023),
   (68030, 68031), (68096, 68096), (68112, 68115), (68117, 68119),
   (68121, 68149), (68192, 68220), (68224, 68252), (68288, 68295),
   (68297, 68324), (68352, 68405), (68416, 68437), (68448, 68466),
   (68480, 68497), (68608, 68680), (68736, 68786), (68800, 68850),
   (68864, 68899), (69248, 69289), (69296, 69297), (69376, 69404),
   (69415, 69415), (69424, 69445), (69488, 69505), (69552, 69572),
   (69600, 69622), (69635, 69687), (69745, 69746), (69749, 69749),
   (69763, 69807), (69840, 69864), (69891, 69926), (69956, 69956),
   (69959, 69959), (69968, 70002), (70006, 70006), (70019, 70066),
   (70081, 70084), (70106, 70106), (70108, 70108), (70144, 70161),
   (70163, 70187), (70272, 70278), (70280, 70280), (70282, 70285),
   (70287, 70301), (70303, 70312), (70320, 70366), (70405, 70412),
   (70415, 70416), (70419, 70440), (70442, 70448), (70450, 70451),
   (70453, 70457), (70461, 70461), (70480, 70480), (70493, 70497),
   (70656, 70708), (70727, 70730), (70751, 70753), (70784, 70831),
   (70852, 70853), (70855, 70855), (71040, 71086), (71128, 71131),
   (71168, 71215), (71236, 71236), (71296, 71338), (71352, 71352),
   (71424, 71450), (71488, 71494), (71680, 71723), (71840, 71903),
   (71935, 71942), (71945, 71945), (71948, 71955), (71957, 71958),
   (71960, 71983), (71999, 71999), (72001, 72001), (72096, 72103),
   (72106, 72144), (72161, 72161), (72163, 72163), (72192, 72192),
   (72203, 72242), (72250, 72250), (72272, 72272), (72284, 72329),
   (72349, 72349), (72368, 72440), (72704, 72712), (72714, 72750),
   (72768, 72768), (72818, 72847), (72960, 72966), (72968, 72969),
   (72971, 73008), (73030, 73030), (73056, 73061), (73063, 73064),
   (73066, 73097), (73112, 73112), (73440, 73458), (73648, 73648),
   (73728, 74649), (74880, 75075), (77712, 77808), (77824, 78894),
   (82944, 83526), (92160, 92728), (92736, 92766), (92784, 92862),
   (92880, 92909), (92928, 92975), (92992, 92995), (93027, 93047),
   (93053, 93071), (93760, 93823), (93952, 94026), (94032, 94032),
   (94099, 94111), (94176, 94177), (94179, 94179), (94208, 100343),
   (100352, 101589), (101632, 101640), (110576, 110579), (110581, 110587),
   (110589, 110590), (110592, 110882), (110928, 110930), (110948, 110951),
   (110960, 111355), (113664, 113770), (113776, 113788), (113792, 113800),
   (113808, 113817), (119808, 119892), (119894, 119964), (119966, 119967),
   (119970, 119970), (119973, 119974), (119977, 119980), (119982, 119993),
   (119995, 119995), (119997, 120003), (120005, 120069), (120071, 120074),
   (120077, 120084), (120086, 120092), (120094, 120121), (120123, 120126),
   (120128, 120132), (120134, 120134), (120138, 120144), (120146, 120485),
   (120488, 120512), (120514, 120538), (120540, 120570), (120572, 120596),
   (120598, 120628), (120630, 120654), (120656, 120686), (120688, 120712),
   (120714, 120744), (120746, 120770), (120772, 120779), (122624, 122654),
   (123136, 123180), (123191, 123197), (123214, 123214), (123536, 123565),
   (123584, 123627), (124896, 124902), (124904, 124907), (124909, 124910),
   (124912, 124926), (124928, 125124), (125184, 125251), (125259, 125259),
   (126464, 126467), (126469, 126495), (126497, 126498), (126500, 126500),
   (126503, 126503), (126505, 126514), (126516, 126519), (126521, 126521),
   (126523, 126523), (126530, 126530), (126535, 126535), (126537, 126537),
   (126539, 126539), (126541, 126543), (126545, 126546), (126548, 126548),
   (126551, 126551), (126553, 126553), (126555, 126555), (126557, 126557),
   (126559, 126559), (126561, 126562), (126564, 126564), (126567, 126570),
   (126572, 126578), (126580, 126583), (126585, 126588), (126590, 126590),
   (126592, 126601), (126603, 126619), (126625, 126627), (126629, 126633),
   (126635, 126651), (131072, 173791), (173824, 177976), (177984, 178205),
   (178208, 183969), (183984, 191456), (194560, 195101), (196608, 201546)]

/-- Python str.isalpha per character (src line 616: any(c.isalpha() for c
in decoded)): true exactly on the Unicode letter code points of
alphaRanges. -/
def pyIsAlpha (c : Char) : Bool :=
  alphaRanges.any (fun p => p.1 ≤ c.toNat && c.toNat ≤ p.2)

/-- A GGUF metadata field as the structured reader exposes it: `parts`
models the tolist() images of the numpy parts of the field, the last of
which carries the field value (src lines 598-601: data = field.parts[-1];
val = data.tolist()). -/
structure GField where
  parts : List PyVal

/-- int_vals = [int(x) for x in val] (src line 611): int() every element,
the whole conversion failing as soon as one element raises. -/
def toIntList : List PyVal → Option (List Int)
  | [] => some []
  | x :: rest =>
    match pyToInt x, toIntList rest with
    | some n, some t => some (n :: t)
    | _, _ => none

/-- The multi-element array branch of `get_field_value` (src lines
608-621): convert every element with int(); if that succeeds and every
value lies in 0-255, decode the bytes as UTF-8 and return the string when
it contains a letter; in every other case return the list unchanged. -/
def decodeMultiElem (xs : List PyVal) : PyVal :=
  match toIntList xs with
  | some ints =>
      if ints.all (fun x => 0 ≤ x && x < 256) then
        let decoded := utf8DecodeIgnore (ints.map Int.toNat)
        if decoded.any pyIsAlpha then .pStr (String.mk decoded)
        else .pList xs
      else .pList xs
  | none => .pList xs

/-- The value branch of `get_field_value` on the last part (src lines
600-625): a list of length 0 yields the default, of length 1 its sole
element, longer lists go through the string heuristic; bytes are decoded;
scalars pass through. -/
def decodePart (data : PyVal) (default : Option PyVal) : Option PyVal :=
  match data with
  | .pList [] => default
  | .pList [x] => some x
  | .pList xs => some (decodeMultiElem xs)
  | .pBytes bs => some (.pStr (String.mk (utf8DecodeIgnore bs)))
  | v => some v

/-- The metadata table of the structured reader (`reader.fields`): an
association list preserving the native enumeration order of the keys. -/
def GFields := List (String × GField)

/-- Dictionary lookup in the metadata table (first binding wins, as in a
Python dict with unique keys). -/
def lookupField (fields : GFields) (name : String) : Option GField :=
  match fields with
  | [] => none
  | (k, f) :: rest => if k = name then some f else lookupField rest name

/-- `get_field_value(field_name, default)` (src lines 591-638): absent
key or empty parts yield the default; otherwise the last part is decoded.
Exceptions inside the decode are caught and yield the default; in this
embedding `decodePart` is total, so no separate exception case arises. -/
def get_field_value (fields : GFields) (name : String)
    (default : Option PyVal) : Option PyVal :=
  match lookupField fields name with
  | none => default
  | some f =>
    match f.parts.getLast? with
    | none => default
    | some data => decodePart data default

end FieldDecoder

/-- The fixed ordered quantization catalog from `_guess_quantization`
(src lines 764-770). -/
def quant_types : List String :=
  ["Q8_0", "Q6_K", "Q5_K_M", "Q5_K_S", "Q5_0", "Q5_1",
   "Q4_K_M", "Q4_K_S", "Q4_0", "Q4_1",
   "Q3_K_M", "Q3_K_S", "Q3_K_L",
   "Q2_K", "IQ4_XS", "IQ3_XXS", "IQ2_XXS",
   "F16", "F32", "BF16"]

/-- One catalog entry matches the uppercased filename: either as written or
with underscores replaced by hyphens (src line 772). -/
def quantMatches (filenameUpper : String) (qt : String) : Bool :=
  strContains qt filenameUpper || strContains (underscoreToHyphen qt) filenameUpper

/-- The loop body of `_guess_quantization`: return the first catalog entry
that matches, else "unknown" (src lines 771-774). -/
def guessQuantLoop (filenameUpper : String) : List String → String
  | [] => "unknown"
  | qt :: rest =>
      if quantMatches filenameUpper qt then qt else guessQuantLoop filenameUpper rest

/-- `_guess_quantization(filename)` (src lines 761-774): uppercase the
filename, scan the catalog in order, return the first entry occurring as a
substring (as written or hyphenated), else "unknown". -/
def guess_quantization (filename : String) : String :=
  guessQuantLoop (strUpper filename) quant_types

section RecordModel

mutual

/-- Python repr of a value (str() and repr() coincide on every shape used
here except text strings, which str() returns unquoted; see pyStrOf).
Quoting of nested strings uses the single quote as CPython does. -/
def pyRepr : PyVal → String
  | .pInt n => toString n
  | .pBool b => if b then "True" else "False"
  | .pStr s => "\x27" ++ s ++ "\x27"
  | .pBytes bs => "b\x27" ++ String.mk (utf8DecodeIgnore bs) ++ "\x27"
  | .pList xs => "[" ++ pyReprList xs ++ "]"

/-- Comma-separated repr of the elements of a list (helper of pyRepr). -/
def pyReprList : List PyVal → String
  | [] => ""
  | [x] => pyRepr x
  | x :: rest => pyRepr x ++ ", " ++ pyReprList rest

end

/-- Python str(v): identity on text strings, repr on everything else
(src lines 649, 650, 654, 706 and the f-strings of the summary). -/
def pyStrOf : PyVal → String
  | .pStr s => s
  | v => pyRepr v

/-- Python truthiness of a value (src lines 650, 654 and the guards of
`_update_ui_after_analysis`): zero, empty string and empty containers are
falsy. -/
def pyTruthy : PyVal → Bool
  | .pInt n => n != 0
  | .pBool b => b
  | .pStr s => s != ""
  | .pBytes bs => !bs.isEmpty
  | .pList xs => !xs.isEmpty

/-- Python inequality between a decoded value and a string literal
(src lines 791, 795, 808: result[...] != "unknown"; values of a
different runtime type than str always compare unequal). -/
def pyNeStr (v : PyVal) (s : String) : Bool :=
  match v with
  | .pStr t => t != s
  | _ => true

/-- The analysis result dictionary (MetadataRecord of the spec).  Each
optional field models presence of the corresponding key in the Python
dict built by `_run_gguf_analysis` (src lines 541-581); `none` is an
absent key. -/
structure MetaRec where
  path : String
  filename : String
  file_size_bytes : Option Nat := none
  file_size_gb : Option ℚ := none
  architecture : Option String := none
  model_name : Option String := none
  context_length : Option PyVal := none
  layer_count : Option PyVal := none
  embedding_length : Option PyVal := none
  head_count : Option PyVal := none
  quantization : Option String := none
  vocab_size : Option Int := none
  warning : Option String := none
  error : Option String := none

/-- round(x, 2) (src line 550).  Modelled over the rationals with
round-half-up; Python rounds the nearest double to even at exact ties, a
difference immaterial to every claim (none inspects a tied value). -/
def round2 (q : ℚ) : ℚ := (⌊q * 100 + 1 / 2⌋ : ℚ) / 100

end RecordModel

section GgufReaderStrategy

/-- Decode the value of one field (the body of `get_field_value` after
the dictionary lookup, src lines 596-638). -/
def fieldDecode (f : GField) (default : Option PyVal) : Option PyVal :=
  match f.parts.getLast? with
  | none => default
  | some data => decodePart data default

/-- The substring scan of the key resolver (src lines 661-666 and the
analogous loops): walk the keys in enumeration order, and return the
first decoded value of a key containing the target substring, skipping
keys that decode to no value. -/
def scanForKey : List (String × GField) → String → Option PyVal
  | [], _ => none
  | (k, f) :: rest, sub =>
      if strContains sub k then
        match fieldDecode f none with
        | some v => some v
        | none => scanForKey rest sub
      else scanForKey rest sub

/-- The architecture value after the conversions of src lines 641-649:
bytes are decoded, a list is turned into a string through bytes() when
every element is an integer in 0-255, and through str() otherwise. -/
def normalizeArch (v : PyVal) : PyVal :=
  let v1 : PyVal := match v with
    | .pBytes bs => .pStr (String.mk (utf8DecodeIgnore bs))
    | x => x
  match v1 with
  | .pList xs =>
      (match toIntList xs with
       | some ints =>
           if ints.all (fun x => 0 ≤ x && x < 256) then
             .pStr (String.mk (utf8DecodeIgnore (ints.map Int.toNat)))
           else .pStr (pyRepr (.pList xs))
       | none => .pStr (pyRepr (.pList xs)))
  | x => x

/-- Context-length resolution (src lines 656-666): architecture-qualified
key, then the generic key, then the substring scan. -/
def resolveCtx (fields : List (String × GField)) (arch : String) : Option PyVal :=
  (get_field_value fields (arch ++ ".context_length") none).orElse fun _ =>
    (get_field_value fields "general.context_length" none).orElse fun _ =>
      scanForKey fields "context_length"

/-- Layer-count resolution (src lines 669-677): architecture-qualified
key, then the substring scan (no generic key stage). -/
def resolveLayer (fields : List (String × GField)) (arch : String) : Option PyVal :=
  (get_field_value fields (arch ++ ".block_count") none).orElse fun _ =>
    scanForKey fields "block_count"

/-- Embedding-length resolution (src lines 680-687). -/
def resolveEmbed (fields : List (String × GField)) (arch : String) : Option PyVal :=
  (get_field_value fields (arch ++ ".embedding_length") none).orElse fun _ =>
    scanForKey fields "embedding_length"

/-- Head-count resolution (src lines 690-697). -/
def resolveHead (fields : List (String × GField)) (arch : String) : Option PyVal :=
  (get_field_value fields (arch ++ ".attention.head_count") none).orElse fun _ =>
    scanForKey fields "head_count"

/-- The quantization computation of the structured-reader strategy
(src lines 700-707): the filename heuristic always runs first; the
recorded file-type code is consulted only when the heuristic found
nothing. -/
def quantFromReader (filename : String) (fields : List (String × GField)) : String :=
  let quant := guess_quantization filename
  if quant = "unknown" then
    match get_field_value fields "general.file_type" none with
    | some ft => "type_" ++ pyStrOf ft
    | none => quant
  else quant

/-- `_analyze_with_gguf_reader` (src lines 583-709) after a successful
construction of the reader: populate every semantic field of the record
from the metadata table. -/
def analyze_with_gguf_reader (fields : List (String × GField))
    (result : MetaRec) : MetaRec :=
  let arch0 := (get_field_value fields "general.architecture"
    (some (.pStr "unknown"))).getD (.pStr "unknown")
  let archV := normalizeArch arch0
  let archKey := pyStrOf archV
  let archStr := if pyTruthy archV then pyStrOf archV else "unknown"
  let name0 := (get_field_value fields "general.name"
    (some (.pStr result.filename))).getD (.pStr result.filename)
  let nameStr := if pyTruthy name0 then pyStrOf name0 else result.filename
  { result with
    architecture := some archStr
    model_name := some nameStr
    context_length := some ((resolveCtx fields archKey).getD (.pStr "unknown"))
    layer_count := some ((resolveLayer fields archKey).getD (.pStr "unknown"))
    embedding_length := some ((resolveEmbed fields archKey).getD (.pStr "unknown"))
    head_count := some ((resolveHead fields archKey).getD (.pStr "unknown"))
    quantization := some (quantFromReader result.filename fields) }

end GgufReaderStrategy

section LlamaCppStrategy

/-- Lookup in the string-to-string metadata map reported by the full-load
library (llm.metadata). -/
def lookupMeta : List (String × String) → String → Option String
  | [], _ => none
  | (k, v) :: rest, name => if k = name then some v else lookupMeta rest name

/-- `_analyze_with_llama_cpp` (src lines 711-759) after a successful
model construction: every semantic field comes from metadata.get with the
defaults of the source; note line 750 prefers the recorded
general.quantization_version over the filename heuristic. -/
def analyze_with_llama_cpp (md : List (String × String)) (nVocab : Option Int)
    (result : MetaRec) : MetaRec :=
  let arch := (lookupMeta md "general.architecture").getD "unknown"
  let nameStr := (lookupMeta md "general.name").getD result.filename
  let ctx := (lookupMeta md (arch ++ ".context_length")).getD
    ((lookupMeta md "general.context_length").getD "unknown")
  let layer := (lookupMeta md (arch ++ ".block_count")).getD "unknown"
  let embed := (lookupMeta md (arch ++ ".embedding_length")).getD "unknown"
  let head := (lookupMeta md (arch ++ ".attention.head_count")).getD "unknown"
  let quant := (lookupMeta md "general.quantization_version").getD
    (guess_quantization result.filename)
  { result with
    architecture := some arch
    model_name := some nameStr
    context_length := some (.pStr ctx)
    layer_count := some (.pStr layer)
    embedding_length := some (.pStr embed)
    head_count := some (.pStr head)
    quantization := some quant
    vocab_size := nVocab }

end LlamaCppStrategy

section Orchestrator

/-- Outcome of os.path.getsize (src line 548) classified by the except
clauses of src lines 574-579. -/
inductive FsOutcome where
  | ok (size : Nat)
  | notFound
  | permissionDenied
  | otherErr (msg : String)

/-- The environment one call of `_run_gguf_analysis` runs in: the
filesystem outcome, which extraction libraries the running interpreter
imported, and each strategy's outcome when invoked.  A strategy outcome
of none models the strategy raising; the structured reader raises at
GGUFReader construction and the full-load strategy at Llama construction,
both before any record mutation, so failures are modelled at
whole-strategy granularity.  The filename is the basename of the path
(src line 543), carried as data since no claim depends on basename
computation. -/
structure AnalysisEnv where
  path : String
  filename : String
  stat : FsOutcome
  ggufAvailable : Bool
  ggufOutcome : Option (List (String × GField))
  llamaAvailable : Bool
  llamaOutcome : Option (List (String × String) × Option Int)
  llamaErrMsg : String

/-- The stages of src lines 561-572 reached when the structured reader
was unavailable or raised: try the full-load strategy, else warn when no
library at all is importable, else return the record unchanged. -/
def llamaStage (env : AnalysisEnv) (r1 : MetaRec) : MetaRec :=
  if env.llamaAvailable then
    match env.llamaOutcome with
    | some (md, nv) => analyze_with_llama_cpp md nv r1
    | none => { r1 with warning := some ("Metadata extraction failed: " ++ env.llamaErrMsg) }
  else if !env.ggufAvailable && !env.llamaAvailable then
    { r1 with warning := some "Install \x27gguf\x27 or \x27llama-cpp-python\x27 for metadata" }
  else r1

/-- `_run_gguf_analysis` (src lines 533-581): size the file (a stat
failure is fatal and sets error), then try the structured reader, then
the full-load fallback, then the no-library warning. -/
def run_gguf_analysis (env : AnalysisEnv) : MetaRec :=
  let base : MetaRec := { path := env.path, filename := env.filename }
  match env.stat with
  | .notFound => { base with error := some "File not found" }
  | .permissionDenied => { base with error := some "Permission denied" }
  | .otherErr m => { base with error := some ("Analysis failed: " ++ m) }
  | .ok size =>
    let r1 := { base with
      file_size_bytes := some size
      file_size_gb := some (round2 ((size : ℚ) / 1073741824)) }
    if env.ggufAvailable then
      match env.ggufOutcome with
      | some fields => analyze_with_gguf_reader fields r1
      | none => llamaStage env r1
    else llamaStage env r1

end Orchestrator

section Summary

/-- Decimal rendering of a file-size rational; models Python float
formatting for the values round(x, 2) produces (an integral number of
hundredths): 4 renders as 4.0, 21/5 as 4.2, 17/4 as 4.25. -/
def showGB (q : ℚ) : String :=
  let c : Int := q.num * 100 / q.den
  let ip := c / 100
  let fr := c % 100
  if fr = 0 then toString ip ++ ".0"
  else if fr % 10 = 0 then toString ip ++ "." ++ toString (fr / 10)
  else if fr < 10 then toString ip ++ ".0" ++ toString fr
  else toString ip ++ "." ++ toString fr

/-- The size text used by the degraded branches of the summary
(result.get with default "?", src lines 814 and 818). -/
def gbText (r : MetaRec) : String :=
  match r.file_size_gb with
  | some q => showGB q
  | none => "?"

/-- The list of summary segments assembled from the known fields
(src lines 784-809). -/
def summaryParts (r : MetaRec) : List String :=
  (match r.architecture with
   | some a => if a != "" && a != "unknown" then ["Arch: " ++ a] else []
   | none => []) ++
  (match r.layer_count with
   | some v => if pyTruthy v && pyNeStr v "unknown" then ["Layers: " ++ pyStrOf v] else []
   | none => []) ++
  (match r.context_length with
   | some v =>
       if pyTruthy v && pyNeStr v "unknown" then
         match v with
         | .pInt n => if 1024 ≤ n then ["Ctx: " ++ toString (n / 1024) ++ "K"]
             else ["Ctx: " ++ pyStrOf v]
         | _ => ["Ctx: " ++ pyStrOf v]
       else []
   | none => []) ++
  (match r.file_size_gb with
   | some q => if q != 0 then ["Size: " ++ showGB q ++ " GB"] else []
   | none => []) ++
  (match r.quantization with
   | some s => if s != "" && s != "unknown" then ["Quant: " ++ s] else []
   | none => [])

/-- `_update_ui_after_analysis` (src lines 776-820) as the text it puts
into the model-info label: the error branch short-circuits; otherwise the
known segments are joined; a truthy warning replaces the joined text with
the size-plus-warning form of src line 818. -/
def update_ui_after_analysis (r : MetaRec) : String :=
  match r.error with
  | some e => "⚠ " ++ r.filename ++ ": " ++ e
  | none =>
    let parts := summaryParts r
    let info := if parts.isEmpty then "Size: " ++ gbText r ++ " GB"
      else String.intercalate " │ " parts
    match r.warning with
    | some w => if w != "" then "Size: " ++ gbText r ++ " GB │ ⚠ " ++ w else info
    | none => info

end Summary

section Scheduler

/-- The scheduler state: the current analysis path
(self.current_analysis_path, src line 156, initially None), the
callbacks scheduled through root.after but not yet run by the main loop,
and the results delivered to the interface, each tagged with the path of
the worker that produced it. -/
structure SchedState where
  current : Option String
  queue : List (String × MetaRec)
  delivered : List (String × MetaRec)

/-- Events of the analysis scheduler: submit models `_start_analysis`
(src lines 825-839) running on the main thread; complete models a worker
finishing `_run_gguf_analysis` and executing the staleness check of src
line 835 together with the root.after enqueue (atomic with respect to
main-thread writes under the interpreter lock); fire models the main loop
running the oldest scheduled callback, which delivers the record through
`_update_ui_after_analysis`. -/
inductive SchedEv where
  | submit (p : String)
  | complete (p : String) (r : MetaRec)
  | fire

/-- One scheduler transition.  submit on the already-current path is a
no-op (src line 828); otherwise it records the new current path.
complete enqueues its result only when its path still equals the current
path.  fire delivers the oldest queued result. -/
def schedStep (s : SchedState) : SchedEv → SchedState
  | .submit p => if s.current = some p then s else { s with current := some p }
  | .complete p r =>
      if s.current = some p then { s with queue := s.queue ++ [(p, r)] } else s
  | .fire =>
      match s.queue with
      | [] => s
      | x :: restQ => { s with queue := restQ, delivered := s.delivered ++ [x] }

/-- The scheduler state reached from the initial state (no current path,
nothing queued or delivered) by a trace of events. -/
def schedRun (evs : List SchedEv) : SchedState :=
  evs.foldl schedStep { current := none, queue := [], delivered := [] }

end Scheduler

section Claim1

lemma toIntList_map_pInt (ns : List Int) :
    toIntList (ns.map PyVal.pInt) = some ns := by
  induction ns with
  | nil => rfl
  | cons n t ih => simp [List.map_cons, toIntList, pyToInt, ih]

/-- C1: for every metadata field whose payload is a multi-element array
of integers each in 0-255, the field decoder returns the UTF-8-decoded
string when the decoded content contains an alphabetic character, and the
array of integers unchanged when it contains none. -/
theorem C1_byte_array_heuristic
    (fields : List (String × GField)) (k : String) (f : GField)
    (ns : List Int) (d : Option PyVal)
    (hlook : lookupField fields k = some f)
    (hlast : f.parts.getLast? = some (.pList (ns.map PyVal.pInt)))
    (hlen : 2 ≤ ns.length)
    (hrange : ∀ n ∈ ns, 0 ≤ n ∧ n < 256) :
    get_field_value fields k d =
      some (if (utf8DecodeIgnore (ns.map Int.toNat)).any pyIsAlpha then
              PyVal.pStr (String.mk (utf8DecodeIgnore (ns.map Int.toNat)))
            else PyVal.pList (ns.map PyVal.pInt)) := by
  match ns, hlen with
  | a :: b :: t, _ =>
    have hall : (a :: b :: t).all (fun x => decide (0 ≤ x) && decide (x < 256)) = true := by
      simp only [List.all_eq_true, Bool.and_eq_true, decide_eq_true_eq]
      exact fun x hx => hrange x hx
    simp only [get_field_value, hlook, hlast, List.map_cons, decodePart,
      decodeMultiElem, toIntList_map_pInt]
    rw [show toIntList (PyVal.pInt a :: PyVal.pInt b :: t.map PyVal.pInt) =
      some (a :: b :: t) from toIntList_map_pInt (a :: b :: t)]
    simp only [hall, if_true, List.map_cons]

set_option maxRecDepth 100000 in
/-- Witness for C1 at three concrete fields: the ASCII bytes of "hi" and
the UTF-8 bytes [206, 177] of the Greek letter alpha both decode to
strings (alpha is a non-ASCII letter), while the bytes [1, 2] stay an
integer array. -/
theorem C1_byte_array_heuristic_witness :
    get_field_value [("general.quantized_by", ⟨[PyVal.pList [.pInt 104, .pInt 105]]⟩)]
      "general.quantized_by" none = some (.pStr "hi") ∧
    get_field_value [("general.name", ⟨[PyVal.pList [.pInt 206, .pInt 177]]⟩)]
      "general.name" none = some (.pStr "α") ∧
    get_field_value [("split.tensors.count", ⟨[PyVal.pList [.pInt 1, .pInt 2]]⟩)]
      "split.tensors.count" none = some (.pList [.pInt 1, .pInt 2]) := by
  refine ⟨?_, ?_, ?_⟩
  · exact C1_byte_array_heuristic _ "general.quantized_by" _ [104, 105] none
      rfl rfl (by norm_num) (by decide)
  · exact C1_byte_array_heuristic _ "general.name" _ [206, 177] none
      rfl rfl (by norm_num) (by decide)
  · exact C1_byte_array_heuristic _ "split.tensors.count" _ [1, 2] none
      rfl rfl (by norm_num) (by decide)

end Claim1

section Claim10

/-- The record produced by the structured reader on a metadata set whose
only key is an architecture-scoped context length with an empty payload. -/
def emptyCtxFields : List (String × GField) :=
  [("llama.context_length", ⟨[PyVal.pList []]⟩)]

/-- C10: a field whose decoded payload is an empty array yields the
caller-supplied default, so the field counts as absent; at the record
level an all-empty context-length key is reported as "unknown". -/
theorem C10_empty_array_default :
    (∀ (fields : List (String × GField)) (k : String) (f : GField) (d : Option PyVal),
      lookupField fields k = some f →
      f.parts.getLast? = some (.pList []) →
      get_field_value fields k d = d) ∧
    (analyze_with_gguf_reader emptyCtxFields
      { path := "/m/a.gguf", filename := "a.gguf" }).context_length =
      some (.pStr "unknown") := by
  constructor
  · intro fields k f d hlook hlast
    simp only [get_field_value, hlook, hlast, decodePart]
  · rfl

/-- Witness for C10 at a concrete one-key table with an empty payload and
a non-trivial default. -/
theorem C10_empty_array_default_witness :
    get_field_value [("general.file_type", ⟨[PyVal.pList []]⟩)] "general.file_type"
      (some (.pStr "fallback")) = some (.pStr "fallback") := by
  exact C10_empty_array_default.1 _ "general.file_type" _ _ rfl rfl

end Claim10

section Claim3

/-- A metadata set in which both the architecture-qualified and the
generic context-length keys are present, but the architecture-qualified
one carries an empty payload and so decodes to no value. -/
def c3Fields : List (String × GField) :=
  [("llama.context_length", ⟨[PyVal.pList []]⟩),
   ("general.context_length", ⟨[PyVal.pList [.pInt 2048]]⟩)]

/-- C3 counterexample: with both keys present and architecture "llama",
the resolver returns the generic key value 2048 because the
architecture-qualified key decodes to no value — not the value of the
architecture-qualified key as the claim states for every such set. -/
theorem C3_counterexample :
    (lookupField c3Fields "llama.context_length").isSome = true ∧
    (lookupField c3Fields "general.context_length").isSome = true ∧
    get_field_value c3Fields "llama.context_length" none = none ∧
    resolveCtx c3Fields "llama" = some (.pInt 2048) :=
  ⟨rfl, rfl, rfl, rfl⟩

/-- C3 amended: whenever the architecture-qualified context-length key
decodes to a value, the resolver returns that value, whatever the generic
key holds; in particular with both "llama.context_length" (4096) and
"general.context_length" (2048) present and decodable, architecture
"llama" resolves to 4096. -/
theorem C3_arch_key_precedence :
    (∀ (fields : List (String × GField)) (arch : String) (v : PyVal),
      get_field_value fields (arch ++ ".context_length") none = some v →
      resolveCtx fields arch = some v) ∧
    resolveCtx [("llama.context_length", ⟨[PyVal.pList [.pInt 4096]]⟩),
                ("general.context_length", ⟨[PyVal.pList [.pInt 2048]]⟩)] "llama" =
      some (.pInt 4096) := by
  constructor
  · intro fields arch v h
    simp [resolveCtx, h, Option.orElse]
  · rfl

/-- Witness for C3 amended at a concrete one-key metadata set. -/
theorem C3_arch_key_precedence_witness :
    resolveCtx [("llama.context_length", ⟨[PyVal.pList [.pInt 8192]]⟩)] "llama" =
      some (.pInt 8192) :=
  C3_arch_key_precedence.1 _ "llama" _ rfl

end Claim3

section Claim4

lemma guessQuantLoop_eq_find (u : String) (l : List String) :
    guessQuantLoop u l = (l.find? (quantMatches u)).getD "unknown" := by
  induction l with
  | nil => rfl
  | cons q t ih =>
      by_cases h : quantMatches u q = true
      · simp [guessQuantLoop, List.find?_cons, h]
      · simp only [Bool.not_eq_true] at h
        simp [guessQuantLoop, List.find?_cons, h, ih]

/-- C4: the quantization inferencer returns the first catalog entry that
occurs in the uppercased filename as written or hyphenated, earlier
entries winning; "model-Q4_K_M.gguf" and "model-q4-k-m.gguf" both give
"Q4_K_M"; a filename matching no entry, with no file-type code in the
metadata, gives "unknown". -/
theorem C4_quantization_inferencer :
    guess_quantization "model-Q4_K_M.gguf" = "Q4_K_M" ∧
    guess_quantization "model-q4-k-m.gguf" = "Q4_K_M" ∧
    (∀ fn : String, guess_quantization fn =
      (quant_types.find? (quantMatches (strUpper fn))).getD "unknown") ∧
    (∀ (fn : String) (fields : List (String × GField)),
      guess_quantization fn = "unknown" →
      get_field_value fields "general.file_type" none = none →
      quantFromReader fn fields = "unknown") := by
  refine ⟨rfl, rfl, fun fn => guessQuantLoop_eq_find (strUpper fn) quant_types,
    fun fn fields h1 h2 => ?_⟩
  simp [quantFromReader, h1, h2]

/-- Witness for C4 at a concrete filename with no catalog token and an
empty metadata table. -/
theorem C4_quantization_inferencer_witness :
    guess_quantization "plain-model.gguf" =
      (quant_types.find? (quantMatches (strUpper "plain-model.gguf"))).getD "unknown" ∧
    quantFromReader "plain-model.gguf" [] = "unknown" :=
  ⟨C4_quantization_inferencer.2.2.1 "plain-model.gguf",
   C4_quantization_inferencer.2.2.2 "plain-model.gguf" [] rfl rfl⟩

end Claim4

section Claim6

/-- C6: when the structured reader raises and the full-load strategy is
available and succeeds, the orchestrator returns exactly the full-load
record built on the sized base record — the reader exception neither
propagates (the orchestrator stays a total function of its environment)
nor sets error. -/
theorem C6_reader_failure_fallback
    (env : AnalysisEnv) (size : Nat) (md : List (String × String)) (nv : Option Int)
    (hstat : env.stat = .ok size)
    (hga : env.ggufAvailable = true)
    (hgo : env.ggufOutcome = none)
    (hla : env.llamaAvailable = true)
    (hlo : env.llamaOutcome = some (md, nv)) :
    run_gguf_analysis env =
      analyze_with_llama_cpp md nv
        { path := env.path, filename := env.filename,
          file_size_bytes := some size,
          file_size_gb := some (round2 ((size : ℚ) / 1073741824)) } ∧
    (run_gguf_analysis env).error = none := by
  have h1 : run_gguf_analysis env =
      analyze_with_llama_cpp md nv
        { path := env.path, filename := env.filename,
          file_size_bytes := some size,
          file_size_gb := some (round2 ((size : ℚ) / 1073741824)) } := by
    simp [run_gguf_analysis, hstat, hga, hgo, hla, hlo, llamaStage]
  refine ⟨h1, ?_⟩
  rw [h1]
  simp [analyze_with_llama_cpp]

/-- A concrete environment for the C6 witness: reader raises, full-load
succeeds with a one-entry metadata map. -/
def envC6 : AnalysisEnv :=
  { path := "/m/x.gguf", filename := "x.gguf", stat := .ok 1000,
    ggufAvailable := true, ggufOutcome := none,
    llamaAvailable := true,
    llamaOutcome := some ([("general.architecture", "llama")], none),
    llamaErrMsg := "" }

/-- Witness for C6: on envC6 the delivered record has no error and
carries the full-load architecture. -/
theorem C6_reader_failure_fallback_witness :
    (run_gguf_analysis envC6).error = none ∧
    (run_gguf_analysis envC6).architecture = some "llama" := by
  have h := C6_reader_failure_fallback envC6 1000
    [("general.architecture", "llama")] none rfl rfl rfl rfl rfl
  refine ⟨h.2, ?_⟩
  rw [h.1]
  rfl

end Claim6

section Claim7

/-- C7: when neither extraction library is available and the file stats
successfully, the record has error unset, warning set, and
file_size_bytes populated. -/
theorem C7_total_unavailability
    (env : AnalysisEnv) (size : Nat)
    (hstat : env.stat = .ok size)
    (hga : env.ggufAvailable = false)
    (hla : env.llamaAvailable = false) :
    (run_gguf_analysis env).error = none ∧
    (run_gguf_analysis env).warning.isSome = true ∧
    (run_gguf_analysis env).file_size_bytes = some size := by
  simp [run_gguf_analysis, hstat, hga, hla, llamaStage]

/-- A concrete environment for the C7 witness: statable file, no
extraction library importable. -/
def envC7 : AnalysisEnv :=
  { path := "/m/y.gguf", filename := "y.gguf", stat := .ok 512,
    ggufAvailable := false, ggufOutcome := none,
    llamaAvailable := false, llamaOutcome := none, llamaErrMsg := "" }

/-- Witness for C7 at envC7. -/
theorem C7_total_unavailability_witness :
    (run_gguf_analysis envC7).error = none ∧
    (run_gguf_analysis envC7).warning.isSome = true ∧
    (run_gguf_analysis envC7).file_size_bytes = some 512 :=
  C7_total_unavailability envC7 512 rfl rfl rfl

end Claim7

section Claim2

/-- All four numeric metadata fields are present in the record (possibly
holding the "unknown" sentinel, as the data model allows). -/
def numericFull (r : MetaRec) : Prop :=
  r.context_length.isSome = true ∧ r.layer_count.isSome = true ∧
  r.embedding_length.isSome = true ∧ r.head_count.isSome = true

/-- No numeric metadata field is present in the record. -/
def numericAbsent (r : MetaRec) : Prop :=
  r.context_length = none ∧ r.layer_count = none ∧
  r.embedding_length = none ∧ r.head_count = none

/-- An environment with a statable file and no extraction library. -/
def envC2 : AnalysisEnv :=
  { path := "/m/z.gguf", filename := "z.gguf", stat := .ok 2048,
    ggufAvailable := false, ggufOutcome := none,
    llamaAvailable := false, llamaOutcome := none, llamaErrMsg := "" }

/-- C2 counterexample: on envC2 the returned record has neither fully
populated numeric fields nor error set (it carries a warning), so
"exactly one of {fully populated numeric fields, error set}" fails. -/
theorem C2_counterexample :
    ¬ ((numericFull (run_gguf_analysis envC2) ∧
          (run_gguf_analysis envC2).error = none) ∨
       (¬ numericFull (run_gguf_analysis envC2) ∧
          (run_gguf_analysis envC2).error.isSome = true)) ∧
    (run_gguf_analysis envC2).warning.isSome = true := by
  have hc : (run_gguf_analysis envC2).context_length = none := rfl
  have he : (run_gguf_analysis envC2).error = none := rfl
  refine ⟨?_, rfl⟩
  rintro (⟨hf, _⟩ | ⟨_, herr⟩)
  · have h1 := hf.1
    rw [hc] at h1
    exact Bool.false_ne_true h1
  · rw [he] at herr
    exact Bool.false_ne_true herr

/-- C2 amended: at most one of {fully populated numeric fields, error
set} holds; whenever error is set no numeric field is populated and no
warning is set; whenever error is unset the numeric fields are either all
populated or all absent (all absent occurs with a warning, or with no
warning when the structured reader fails and no fallback is available). -/
theorem C2_amended_invariant (env : AnalysisEnv) :
    ((run_gguf_analysis env).error.isSome = true →
      numericAbsent (run_gguf_analysis env) ∧
      (run_gguf_analysis env).warning = none) ∧
    (numericFull (run_gguf_analysis env) →
      (run_gguf_analysis env).error = none) ∧
    ((run_gguf_analysis env).error = none →
      numericFull (run_gguf_analysis env) ∨ numericAbsent (run_gguf_analysis env)) := by
  rcases env with ⟨p, fn, stat, ga, go, la, lo, msg⟩
  rcases stat with size | _ | _ | m <;> cases ga <;> cases la <;>
    rcases go with _ | fields <;> rcases lo with _ | ⟨md, nv⟩ <;>
      simp [run_gguf_analysis, llamaStage, analyze_with_gguf_reader,
        analyze_with_llama_cpp, numericFull, numericAbsent]

/-- An environment whose stat raises FileNotFoundError. -/
def envC2err : AnalysisEnv :=
  { path := "/m/w.gguf", filename := "w.gguf", stat := .notFound,
    ggufAvailable := true, ggufOutcome := none,
    llamaAvailable := true, llamaOutcome := none, llamaErrMsg := "" }

/-- Witness for C2 amended: with a filesystem error, no numeric fields
and no warning are present. -/
theorem C2_amended_invariant_witness :
    numericAbsent (run_gguf_analysis envC2err) ∧
    (run_gguf_analysis envC2err).warning = none :=
  (C2_amended_invariant envC2err).1 rfl

end Claim2

section Claim5

/-- An environment where the full-load strategy succeeds and its metadata
records a quantization version, while the filename carries a catalog
token. -/
def envC5 : AnalysisEnv :=
  { path := "/m/model-Q4_K_M.gguf", filename := "model-Q4_K_M.gguf",
    stat := .ok 100, ggufAvailable := false, ggufOutcome := none,
    llamaAvailable := true,
    llamaOutcome := some ([("general.quantization_version", "2")], none),
    llamaErrMsg := "" }

/-- C5 counterexample: the filename heuristic finds "Q4_K_M", yet the
record delivered through the full-load strategy carries the file's own
recorded general.quantization_version "2" — the recorded metadata DID
override the filename-heuristic match. -/
theorem C5_counterexample :
    guess_quantization "model-Q4_K_M.gguf" = "Q4_K_M" ∧
    (run_gguf_analysis envC5).quantization = some "2" :=
  ⟨rfl, rfl⟩

/-- C5 amended: under the structured-reader strategy the quantization is
the filename heuristic whenever it finds a catalog token and the recorded
file-type code never overrides it; under the full-load strategy a
recorded general.quantization_version takes precedence over the filename
heuristic; and in the no-strategy degraded case the record carries no
quantization value at all. -/
theorem C5_quantization_sources :
    (∀ (fields : List (String × GField)) (r : MetaRec),
      (analyze_with_gguf_reader fields r).quantization =
        some (quantFromReader r.filename fields)) ∧
    (∀ (fields : List (String × GField)) (fn : String),
      guess_quantization fn ≠ "unknown" →
      quantFromReader fn fields = guess_quantization fn) ∧
    (∀ (md : List (String × String)) (nv : Option Int) (r : MetaRec) (v : String),
      lookupMeta md "general.quantization_version" = some v →
      (analyze_with_llama_cpp md nv r).quantization = some v) ∧
    (∀ (env : AnalysisEnv) (size : Nat), env.stat = .ok size →
      env.ggufAvailable = false → env.llamaAvailable = false →
      (run_gguf_analysis env).quantization = none) := by
  refine ⟨fun fields r => rfl, fun fields fn h => ?_, fun md nv r v h => ?_,
    fun env size hstat hga hla => ?_⟩
  · simp [quantFromReader, h]
  · simp [analyze_with_llama_cpp, h]
  · simp [run_gguf_analysis, hstat, hga, hla, llamaStage]

/-- An environment with a catalog token in the filename and no
extraction capability. -/
def envC5deg : AnalysisEnv :=
  { path := "/m/deg-Q6_K.gguf", filename := "deg-Q6_K.gguf",
    stat := .ok 100, ggufAvailable := false, ggufOutcome := none,
    llamaAvailable := false, llamaOutcome := none, llamaErrMsg := "" }

/-- Witness for C5 amended: the heuristic wins in the reader path, and
the degraded record has no quantization key. -/
theorem C5_quantization_sources_witness :
    quantFromReader "m-Q6_K.gguf" [] = guess_quantization "m-Q6_K.gguf" ∧
    (run_gguf_analysis envC5deg).quantization = none :=
  ⟨C5_quantization_sources.2.1 [] "m-Q6_K.gguf" (by decide),
   C5_quantization_sources.2.2.2 envC5deg 100 rfl rfl rfl⟩

end Claim5

section Claim8

/-- A record carrying a warning together with known architecture, layer,
context and quantization fields. -/
def c8Rec : MetaRec :=
  { path := "/m/f.gguf", filename := "f.gguf",
    file_size_bytes := some 4294967296, file_size_gb := some 4,
    architecture := some "llama", layer_count := some (.pInt 28),
    context_length := some (.pInt 4096), quantization := some "Q4_0",
    warning := some "degraded" }

/-- C8 counterexample: on a record with both a warning and known fields,
the summary assembled from the known fields would mention the
architecture, but the text actually delivered does not — the warning
branch replaces the summary instead of appending to it. -/
theorem C8_counterexample :
    c8Rec.architecture = some "llama" ∧
    c8Rec.warning.isSome = true ∧
    strContains "Arch" (String.intercalate " │ " (summaryParts c8Rec)) = true ∧
    strContains "Arch" (update_ui_after_analysis c8Rec) = false :=
  ⟨rfl, rfl, rfl, rfl⟩

/-- C8 amended: whenever a record carries a non-empty warning and no
error, the delivered text is the size-plus-warning line, dropping every
other known field. -/
theorem C8_warning_replaces_summary (r : MetaRec) (w : String)
    (herr : r.error = none) (hw : r.warning = some w) (hne : w ≠ "") :
    update_ui_after_analysis r = "Size: " ++ gbText r ++ " GB │ ⚠ " ++ w := by
  have hb : (w != "") = true := by simpa [bne_iff_ne] using hne
  simp [update_ui_after_analysis, herr, hw, hb]

/-- Witness for C8 amended at the record c8Rec. -/
theorem C8_warning_replaces_summary_witness :
    update_ui_after_analysis c8Rec = "Size: 4.0 GB │ ⚠ degraded" := by
  have h := C8_warning_replaces_summary c8Rec "degraded" rfl rfl (by decide)
  exact h

end Claim8

section Claim9

lemma sched_step_preserve (B A : String) (rB rA : MetaRec) (hAB : A ≠ B)
    (s : SchedState) (e : SchedEv)
    (h1 : s.current = some B) (h2 : (A, rA) ∉ s.queue)
    (h3 : (A, rA) ∉ s.delivered)
    (he : e = SchedEv.fire ∨ e = SchedEv.complete B rB) :
    (schedStep s e).current = some B ∧ (A, rA) ∉ (schedStep s e).queue ∧
    (A, rA) ∉ (schedStep s e).delivered := by
  rcases he with rfl | rfl
  · cases hq : s.queue with
    | nil =>
        have hs : schedStep s SchedEv.fire = s := by simp [schedStep, hq]
        rw [hs]
        exact ⟨h1, h2, h3⟩
    | cons x restQ =>
        have hs : schedStep s SchedEv.fire =
            { s with queue := restQ, delivered := s.delivered ++ [x] } := by
          simp [schedStep, hq]
        rw [hs]
        refine ⟨h1, ?_, ?_⟩
        · intro hmem
          exact h2 (by rw [hq]; exact List.mem_cons_of_mem x hmem)
        · intro hmem
          rcases List.mem_append.mp hmem with hl | hr
          · exact h3 hl
          · have hx : (A, rA) = x := by simpa using hr
            exact h2 (by rw [hq, ← hx]; exact List.mem_cons_self _ _)
  · have hs : schedStep s (SchedEv.complete B rB) =
        { s with queue := s.queue ++ [(B, rB)] } := by
      simp [schedStep, h1]
    rw [hs]
    refine ⟨h1, ?_, h3⟩
    intro hmem
    rcases List.mem_append.mp hmem with hl | hr
    · exact h2 hl
    · have hx : (A, rA) = (B, rB) := by simpa using hr
      exact hAB (congrArg Prod.fst hx)

lemma sched_preserve (B A : String) (rB rA : MetaRec) (hAB : A ≠ B) :
    ∀ (l : List SchedEv) (s : SchedState), s.current = some B →
      (A, rA) ∉ s.queue → (A, rA) ∉ s.delivered →
      (∀ e ∈ l, e = SchedEv.fire ∨ e = SchedEv.complete B rB) →
      (List.foldl schedStep s l).current = some B ∧
      (A, rA) ∉ (List.foldl schedStep s l).queue ∧
      (A, rA) ∉ (List.foldl schedStep s l).delivered := by
  intro l
  induction l with
  | nil => intro s h1 h2 h3 _; exact ⟨h1, h2, h3⟩
  | cons e t ih =>
      intro s h1 h2 h3 hall
      rw [List.foldl_cons]
      obtain ⟨g1, g2, g3⟩ := sched_step_preserve B A rB rA hAB s e h1 h2 h3
        (hall e (List.mem_cons_self e t))
      exact ih (schedStep s e) g1 g2 g3 (fun x hx => hall x (List.mem_cons_of_mem e hx))

/-- C9: submitting path A and then a different path B before the worker
for A completes leads to only B's record ever being delivered: in the
canonical interleaving the delivered list is exactly [(B, rB)], and in
every interleaving where further events are main-loop callback firings or
B's own completion, A's stale result never reaches the delivered list. -/
theorem C9_staleness (A B : String) (rA rB : MetaRec) (hAB : A ≠ B) :
    (schedRun [SchedEv.submit A, SchedEv.submit B, SchedEv.complete A rA,
      SchedEv.complete B rB, SchedEv.fire, SchedEv.fire]).delivered = [(B, rB)] ∧
    (∀ l₂ l₃ : List SchedEv,
      (∀ e ∈ l₂, e = SchedEv.fire ∨ e = SchedEv.complete B rB) →
      (∀ e ∈ l₃, e = SchedEv.fire ∨ e = SchedEv.complete B rB) →
      (A, rA) ∉ (schedRun ([SchedEv.submit A, SchedEv.submit B] ++ l₂ ++
        [SchedEv.complete A rA] ++ l₃)).delivered) := by
  constructor
  · simp [schedRun, schedStep, hAB, Ne.symm hAB]
  · intro l₂ l₃ h2 h3
    simp only [schedRun, List.foldl_append, List.foldl_cons, List.foldl_nil]
    have e0 : schedStep (schedStep { current := none, queue := [], delivered := [] }
        (SchedEv.submit A)) (SchedEv.submit B) =
        { current := some B, queue := [], delivered := [] } := by
      simp [schedStep, hAB]
    rw [e0]
    obtain ⟨hcur1, hq1, hd1⟩ := sched_preserve B A rB rA hAB l₂
      { current := some B, queue := [], delivered := [] } rfl (by simp) (by simp) h2
    have estep : schedStep (List.foldl schedStep
        { current := some B, queue := [], delivered := [] } l₂)
        (SchedEv.complete A rA) =
        List.foldl schedStep { current := some B, queue := [], delivered := [] } l₂ := by
      simp [schedStep, hcur1, Ne.symm hAB]
    rw [estep]
    exact (sched_preserve B A rB rA hAB l₃ _ hcur1 hq1 hd1 h3).2.2

/-- The record a worker for path A would produce in the C9 witness. -/
def recC9A : MetaRec := { path := "/m/A.gguf", filename := "A.gguf" }

/-- The record a worker for path B would produce in the C9 witness. -/
def recC9B : MetaRec := { path := "/m/B.gguf", filename := "B.gguf" }

/-- Witness for C9 at two concrete paths: only B's record is delivered in
the canonical trace, and A's record is not delivered right after its
superseded completion. -/
theorem C9_staleness_witness :
    (schedRun [SchedEv.submit "/m/A.gguf", SchedEv.submit "/m/B.gguf",
      SchedEv.complete "/m/A.gguf" recC9A, SchedEv.complete "/m/B.gguf" recC9B,
      SchedEv.fire, SchedEv.fire]).delivered = [("/m/B.gguf", recC9B)] ∧
    ("/m/A.gguf", recC9A) ∉ (schedRun [SchedEv.submit "/m/A.gguf",
      SchedEv.submit "/m/B.gguf", SchedEv.complete "/m/A.gguf" recC9A]).delivered := by
  have h := C9_staleness "/m/A.gguf" "/m/B.gguf" recC9A recC9B (by decide)
  refine ⟨h.1, ?_⟩
  have h2 := h.2 [] [] (by simp) (by simp)
  simpa using h2

end Claim9

end LlamaLauncher
